import Mathlib

/-
Verification development for the UI-state core of a terminal Spotify client
(`src/spotify_player/src/state/ui.rs`).  The Rust module is embedded shallowly:
strings become `List Char`, the tui cursor types become one-field structures,
`&mut self` methods become state-to-state functions, and `Option<usize>`
becomes `Option Nat`.
-/

set_option autoImplicit false

namespace SpotifyPlayer

/-- Rust strings are modelled as their character sequences. -/
abbrev Str := List Char

/-- Embeds Rust `str::starts_with` on character lists: `startsWith s pat` is
true when `pat` is a prefix of `s`. -/
def startsWith : Str → Str → Bool
  | _, [] => true
  | [], _ :: _ => false
  | a :: s, b :: p => (a == b) && startsWith s p

/-- Embeds Rust `str::contains` with a string pattern: `strContains s pat` is
true when `pat` occurs as a contiguous substring of `s`. -/
def strContains : Str → Str → Bool
  | [], pat => pat.isEmpty
  | c :: rest, pat => startsWith (c :: rest) pat || strContains rest pat

/-- Embeds Rust `str::to_lowercase` (ASCII range, which is all this module's
call sites feed it): lowercase every character. -/
def toLowerStr (s : Str) : Str := s.map Char.toLower

/-- Embeds Rust `str::split` with a character predicate pattern: splits at
every matching character, keeping empty pieces (so splitting the empty string
yields one empty piece, exactly as in Rust). `query.split(' ')` in the source
is `splitOnPred (fun c => c == ' ')`. -/
def splitOnPred (p : Char → Bool) : Str → List Str
  | [] => [[]]
  | c :: rest =>
    if p c then [] :: splitOnPred p rest
    else
      match splitOnPred p rest with
      | [] => [[c]]
      | h :: t => (c :: h) :: t

/-- Modelled from the spec: the cursor of a list widget from the external tui
crate — "conceptually `Option<index>`"; `select` stores the index, `selected`
reads it back. -/
structure ListState where
  selected : Option Nat
deriving DecidableEq

/-- Embeds tui `ListState::select`: store the given optional index. -/
def ListState.select (s : ListState) (id : Option Nat) : ListState :=
  { s with selected := id }

/-- Modelled from the spec: the cursor of a table widget from the external tui
crate — same `Option<index>` contract as `ListState`. -/
structure TableState where
  selected : Option Nat
deriving DecidableEq

/-- Embeds tui `TableState::select`: store the given optional index. -/
def TableState.select (s : TableState) (id : Option Nat) : TableState :=
  { s with selected := id }

/-- Modelled from the spec: the opaque theme value from the config module
(code of this repository outside `src/`); only default construction matters
to the embedded module. -/
structure Theme where
  name : Str
deriving DecidableEq

/-- Default theme, standing for `config::Theme::default()`. -/
def Theme.default : Theme := ⟨[]⟩

/-- Modelled from the spec: the opaque key-sequence accumulator from the key
module (code of this repository outside `src/`); the embedded module only
builds the empty sequence. -/
structure KeySequence where
  keys : List Nat
deriving DecidableEq

/-- Modelled from the spec: the artist record from the player-state module
(code of this repository outside `src/`), a displayable record whose display
string feeds the search filter. -/
structure Artist where
  name : Str
deriving DecidableEq

/-- Display capability, embedding Rust `std::fmt::Display` (`to_string`). -/
class Display (α : Type) where
  fmt : α → Str

instance : Display Artist := ⟨Artist.name⟩

/-- Embeds tui `layout::Rect`, stored opaquely by the UI state. -/
structure Rect where
  x : Nat
  y : Nat
  width : Nat
  height : Nat
deriving DecidableEq

/-- Default rectangle, standing for `tui::layout::Rect::default()`. -/
def Rect.default : Rect := ⟨0, 0, 0, 0⟩

/-- Embeds `PageState` (ui.rs lines 25-29). -/
inductive PageState
  | Default
  | Browse (id : Str)
deriving DecidableEq

/-- Embeds `ArtistFocusState` (ui.rs lines 62-67). -/
inductive ArtistFocusState
  | TopTracks
  | Albums
  | RelatedArtists
deriving DecidableEq

/-- Embeds `WindowState` (ui.rs lines 32-41): the Artist variant carries the
top-tracks table cursor, the albums and related-artists list cursors, and the
focus ring state. -/
inductive WindowState
  | Unknown
  | Playlist (state : TableState)
  | Album (state : TableState)
  | Artist (top_tracks : TableState) (albums : ListState)
      (related_artists : ListState) (focus : ArtistFocusState)
deriving DecidableEq

/-- Embeds `PopupState` (ui.rs lines 44-53). -/
inductive PopupState
  | None
  | CommandHelp
  | ContextSearch (query : Str)
  | PlaylistList (state : ListState)
  | DeviceList (state : ListState)
  | ArtistList (items : List Artist) (state : ListState)
  | ThemeList (items : List Theme) (state : ListState)
deriving DecidableEq

/-- Embeds the `UIState` aggregate (ui.rs lines 10-22). -/
structure UIState where
  is_running : Bool
  theme : Theme
  input_key_sequence : KeySequence
  page : PageState
  history : List PageState
  popup : PopupState
  window : WindowState
  progress_bar_rect : Rect
deriving DecidableEq

/-- Embeds `impl Default for UIState` (ui.rs lines 91-106). -/
def UIState.default : UIState :=
  { is_running := true
    theme := Theme.default
    input_key_sequence := ⟨[]⟩
    page := PageState.Default
    history := [PageState.Default]
    popup := PopupState.None
    window := WindowState.Unknown
    progress_bar_rect := Rect.default }

/-- Embeds `UIState::query_match` (ui.rs lines 70-74): split the query at
every space character and fold, starting from true, conjoining a substring
test of each piece against `s`. -/
def UIState.query_match (s query : Str) : Bool :=
  (splitOnPred (fun c => c == ' ') query).foldl
    (fun acc cur => acc && strContains s cur) true

/-- Embeds `UIState::get_search_filtered_items` (ui.rs lines 77-88): in a
context-search popup, keep the items whose lowercased display string matches
the query; under any other popup return all items. -/
def UIState.get_search_filtered_items {T : Type} [Display T]
    (u : UIState) (items : List T) : List T :=
  match u.popup with
  | PopupState.ContextSearch query =>
      items.filter (fun t => UIState.query_match (toLowerStr (Display.fmt t)) query)
  | _ => items

/-- Embeds `PopupState::get_list_state` (ui.rs lines 110-118). -/
def PopupState.get_list_state : PopupState → Option ListState
  | PopupState.DeviceList state => some state
  | PopupState.PlaylistList state => some state
  | PopupState.ArtistList _ state => some state
  | PopupState.ThemeList _ state => some state
  | _ => Option.none

/-- Embeds `PopupState::list_selected` (ui.rs lines 132-137): read the cursor
of the current list popup, if any. -/
def PopupState.list_selected (p : PopupState) : Option Nat :=
  match p.get_list_state with
  | Option.none => Option.none
  | some state => state.selected

/-- Embeds `PopupState::list_select` (ui.rs lines 140-145), which selects
through `get_list_state_mut` (ui.rs lines 121-129): update the cursor of the
current list popup in place, and do nothing when there is none. -/
def PopupState.list_select (p : PopupState) (id : Option Nat) : PopupState :=
  match p with
  | PopupState.DeviceList state => PopupState.DeviceList (state.select id)
  | PopupState.PlaylistList state => PopupState.PlaylistList (state.select id)
  | PopupState.ArtistList items state => PopupState.ArtistList items (state.select id)
  | PopupState.ThemeList items state => PopupState.ThemeList items (state.select id)
  | p => p

/-- Embeds `WindowState::get_track_table_state` (ui.rs lines 150-157): the
Artist arm always exposes the top-tracks table cursor. -/
def WindowState.get_track_table_state : WindowState → Option TableState
  | WindowState.Unknown => Option.none
  | WindowState.Playlist state => some state
  | WindowState.Album state => some state
  | WindowState.Artist top_tracks _ _ _ => some top_tracks

/-- Embeds `WindowState::select` (ui.rs lines 160-176): route the index to
the cursor picked by the Artist focus, or to the single cursor of the other
variants; no-op on `Unknown`. -/
def WindowState.select (w : WindowState) (id : Option Nat) : WindowState :=
  match w with
  | WindowState.Unknown => WindowState.Unknown
  | WindowState.Playlist state => WindowState.Playlist (state.select id)
  | WindowState.Album state => WindowState.Album (state.select id)
  | WindowState.Artist top_tracks albums related_artists focus =>
    match focus with
    | ArtistFocusState.TopTracks =>
        WindowState.Artist (top_tracks.select id) albums related_artists focus
    | ArtistFocusState.Albums =>
        WindowState.Artist top_tracks (albums.select id) related_artists focus
    | ArtistFocusState.RelatedArtists =>
        WindowState.Artist top_tracks albums (related_artists.select id) focus

/-- Embeds `WindowState::selected` (ui.rs lines 179-191): read the cursor
picked by the Artist focus, or the single cursor of the other variants;
absent on `Unknown`. -/
def WindowState.selected : WindowState → Option Nat
  | WindowState.Unknown => Option.none
  | WindowState.Playlist state => state.selected
  | WindowState.Album state => state.selected
  | WindowState.Artist top_tracks albums related_artists focus =>
    match focus with
    | ArtistFocusState.TopTracks => top_tracks.selected
    | ArtistFocusState.Albums => albums.selected
    | ArtistFocusState.RelatedArtists => related_artists.selected

/-- Embeds the `impl_focusable!` expansion for `ArtistFocusState::next`
(ui.rs lines 208-235). -/
def ArtistFocusState.next : ArtistFocusState → ArtistFocusState
  | ArtistFocusState.TopTracks => ArtistFocusState.Albums
  | ArtistFocusState.Albums => ArtistFocusState.RelatedArtists
  | ArtistFocusState.RelatedArtists => ArtistFocusState.TopTracks

/-- Embeds the `impl_focusable!` expansion for `ArtistFocusState::previous`
(ui.rs lines 208-235). -/
def ArtistFocusState.previous : ArtistFocusState → ArtistFocusState
  | ArtistFocusState.Albums => ArtistFocusState.TopTracks
  | ArtistFocusState.RelatedArtists => ArtistFocusState.Albums
  | ArtistFocusState.TopTracks => ArtistFocusState.RelatedArtists

/-- Embeds `Focusable::next` for `WindowState` (ui.rs lines 195-199): advance
the inner Artist focus, otherwise do nothing. -/
def WindowState.next : WindowState → WindowState
  | WindowState.Artist top_tracks albums related_artists focus =>
      WindowState.Artist top_tracks albums related_artists focus.next
  | w => w

/-- Embeds `Focusable::previous` for `WindowState` (ui.rs lines 201-205). -/
def WindowState.previous : WindowState → WindowState
  | WindowState.Artist top_tracks albums related_artists focus =>
      WindowState.Artist top_tracks albums related_artists focus.previous
  | w => w

/-- Stated from the spec's words for claim comparison: the whitespace-separated
tokens of a query (maximal non-empty pieces between whitespace characters). -/
def specTokens (query : Str) : List Str :=
  (splitOnPred Char.isWhitespace query).filter (fun t => !t.isEmpty)

/-- Stated from the spec's words for claim comparison: an item's lowercase
string form contains every whitespace-separated token of the query as a
substring, case-insensitively. -/
def specMatch (s query : Str) : Bool :=
  (specTokens query).all (fun tok => strContains (toLowerStr s) (toLowerStr tok))

/-- Folding a conjunction over a list from a seed is the seed conjoined with
the conjunction of the whole list. -/
theorem foldl_and_eq_all (p : Str → Bool) (l : List Str) (b : Bool) :
    l.foldl (fun acc x => acc && p x) b = (b && l.all p) := by
  induction l generalizing b with
  | nil => simp
  | cons x xs ih => simp [List.foldl_cons, ih, List.all_cons, Bool.and_assoc]

/-- Every string contains the empty substring. -/
theorem strContains_nil (s : Str) : strContains s [] = true := by
  cases s <;> rfl

/-- The query-match fold is the conjunction over all space-separated pieces
of the query. -/
theorem query_match_eq_all (s q : Str) :
    UIState.query_match s q
      = (splitOnPred (fun c => c == ' ') q).all (fun tok => strContains s tok) := by
  unfold UIState.query_match
  rw [foldl_and_eq_all]
  simp

/-- The empty query matches every string. -/
theorem query_match_nil_query (s : Str) : UIState.query_match s [] = true := by
  rw [query_match_eq_all]
  simp [splitOnPred, strContains_nil]

/-- C3: the Artist focus ring follows the fixed cyclic order
TopTracks → Albums → RelatedArtists → TopTracks, `previous` follows the
reverse order, three steps in either direction from TopTracks return to
TopTracks, and `next` followed by `previous` is the identity on every
focus state. -/
theorem C3_focus_ring_cycle :
    ArtistFocusState.TopTracks.next = ArtistFocusState.Albums
    ∧ ArtistFocusState.Albums.next = ArtistFocusState.RelatedArtists
    ∧ ArtistFocusState.RelatedArtists.next = ArtistFocusState.TopTracks
    ∧ ArtistFocusState.Albums.previous = ArtistFocusState.TopTracks
    ∧ ArtistFocusState.RelatedArtists.previous = ArtistFocusState.Albums
    ∧ ArtistFocusState.TopTracks.previous = ArtistFocusState.RelatedArtists
    ∧ ArtistFocusState.TopTracks.next.next.next = ArtistFocusState.TopTracks
    ∧ ArtistFocusState.TopTracks.previous.previous.previous
        = ArtistFocusState.TopTracks
    ∧ ∀ f : ArtistFocusState, f.next.previous = f := by
  refine ⟨rfl, rfl, rfl, rfl, rfl, rfl, rfl, rfl, ?_⟩
  intro f
  cases f <;> rfl

/-- C4: on the Artist window, `select` routes the index to the cursor chosen
by the current focus and leaves the other two cursors and the focus unchanged;
`selected` mirrors the same routing; and after selecting under Albums focus
and switching the focus to TopTracks, `selected` reports the untouched
TopTracks cursor. -/
theorem C4_artist_select_routing :
    ∀ (tt : TableState) (al ra : ListState) (i : Option Nat),
      (WindowState.Artist tt al ra ArtistFocusState.TopTracks).select i
          = WindowState.Artist (tt.select i) al ra ArtistFocusState.TopTracks
      ∧ (WindowState.Artist tt al ra ArtistFocusState.Albums).select i
          = WindowState.Artist tt (al.select i) ra ArtistFocusState.Albums
      ∧ (WindowState.Artist tt al ra ArtistFocusState.RelatedArtists).select i
          = WindowState.Artist tt al (ra.select i) ArtistFocusState.RelatedArtists
      ∧ (∀ f : ArtistFocusState,
          ((WindowState.Artist tt al ra f).select i).selected = i)
      ∧ (WindowState.Artist tt al ra ArtistFocusState.TopTracks).selected
          = tt.selected
      ∧ (WindowState.Artist tt al ra ArtistFocusState.Albums).selected
          = al.selected
      ∧ (WindowState.Artist tt al ra ArtistFocusState.RelatedArtists).selected
          = ra.selected
      ∧ (((WindowState.Artist tt al ra ArtistFocusState.Albums).select
            (some 2)).previous).selected = tt.selected := by
  intro tt al ra i
  refine ⟨rfl, rfl, rfl, ?_, rfl, rfl, rfl, rfl⟩
  intro f
  cases f <;> rfl

/-- C5: operating on a mismatched variant is a silent no-op: `select` on the
Unknown window leaves it unchanged and `selected` on Unknown is absent;
window `next`/`previous` leave Unknown, Playlist and Album windows unchanged
and on Artist delegate to the inner focus, which always moves (no focus state
is its own successor or predecessor). -/
theorem C5_mismatched_variant_noop :
    ∀ (i : Option Nat) (s : TableState) (tt : TableState) (al ra : ListState)
      (f : ArtistFocusState),
      WindowState.Unknown.select i = WindowState.Unknown
      ∧ WindowState.Unknown.selected = Option.none
      ∧ WindowState.Unknown.next = WindowState.Unknown
      ∧ WindowState.Unknown.previous = WindowState.Unknown
      ∧ (WindowState.Playlist s).next = WindowState.Playlist s
      ∧ (WindowState.Playlist s).previous = WindowState.Playlist s
      ∧ (WindowState.Album s).next = WindowState.Album s
      ∧ (WindowState.Album s).previous = WindowState.Album s
      ∧ (WindowState.Artist tt al ra f).next
          = WindowState.Artist tt al ra f.next
      ∧ (WindowState.Artist tt al ra f).previous
          = WindowState.Artist tt al ra f.previous
      ∧ (f.next == f) = false
      ∧ (f.previous == f) = false := by
  intro i s tt al ra f
  refine ⟨rfl, rfl, rfl, rfl, rfl, rfl, rfl, rfl, rfl, rfl, ?_, ?_⟩ <;>
    cases f <;> rfl

/-- C6: the popup list cursor is present exactly for the four list-bearing
variants and absent for None, CommandHelp and ContextSearch; `list_selected`
delegates to it; `list_select` delegates the index to the cursor of each
list-bearing variant, leaving the carried items untouched, and leaves the
popup unchanged when no list cursor applies. -/
theorem C6_popup_list_cursor :
    ∀ (q : Str) (ls : ListState) (arts : List Artist) (thms : List Theme)
      (i : Option Nat),
      PopupState.None.get_list_state = Option.none
      ∧ PopupState.CommandHelp.get_list_state = Option.none
      ∧ (PopupState.ContextSearch q).get_list_state = Option.none
      ∧ (PopupState.PlaylistList ls).get_list_state = some ls
      ∧ (PopupState.DeviceList ls).get_list_state = some ls
      ∧ (PopupState.ArtistList arts ls).get_list_state = some ls
      ∧ (PopupState.ThemeList thms ls).get_list_state = some ls
      ∧ (∀ p : PopupState,
          p.list_selected = Option.bind p.get_list_state ListState.selected)
      ∧ PopupState.None.list_selected = Option.none
      ∧ PopupState.CommandHelp.list_selected = Option.none
      ∧ (PopupState.ContextSearch q).list_selected = Option.none
      ∧ (PopupState.PlaylistList ls).list_select i
          = PopupState.PlaylistList (ls.select i)
      ∧ (PopupState.DeviceList ls).list_select i
          = PopupState.DeviceList (ls.select i)
      ∧ (PopupState.ArtistList arts ls).list_select i
          = PopupState.ArtistList arts (ls.select i)
      ∧ (PopupState.ThemeList thms ls).list_select i
          = PopupState.ThemeList thms (ls.select i)
      ∧ PopupState.None.list_select i = PopupState.None
      ∧ PopupState.CommandHelp.list_select i = PopupState.CommandHelp
      ∧ (PopupState.ContextSearch q).list_select i = PopupState.ContextSearch q := by
  intro q ls arts thms i
  refine ⟨rfl, rfl, rfl, rfl, rfl, rfl, rfl, ?_, rfl, rfl, rfl, rfl, rfl, rfl,
    rfl, rfl, rfl, rfl⟩
  intro p
  cases p <;> rfl

/-- C8: selection round-trip on every cursor-exposing window and popup
variant: selecting an index makes `selected` report it, and clearing the
selection makes `selected` report absence. -/
theorem C8_selection_round_trip :
    ∀ (i : Nat) (s s2 tt : TableState) (al ra ls : ListState)
      (f : ArtistFocusState) (arts : List Artist) (thms : List Theme),
      ((WindowState.Playlist s).select (some i)).selected = some i
      ∧ ((WindowState.Playlist s).select Option.none).selected = Option.none
      ∧ ((WindowState.Album s2).select (some i)).selected = some i
      ∧ ((WindowState.Album s2).select Option.none).selected = Option.none
      ∧ ((WindowState.Artist tt al ra f).select (some i)).selected = some i
      ∧ ((WindowState.Artist tt al ra f).select Option.none).selected
          = Option.none
      ∧ ((PopupState.PlaylistList ls).list_select (some i)).list_selected
          = some i
      ∧ ((PopupState.PlaylistList ls).list_select Option.none).list_selected
          = Option.none
      ∧ ((PopupState.DeviceList ls).list_select (some i)).list_selected
          = some i
      ∧ ((PopupState.DeviceList ls).list_select Option.none).list_selected
          = Option.none
      ∧ ((PopupState.ArtistList arts ls).list_select (some i)).list_selected
          = some i
      ∧ ((PopupState.ArtistList arts ls).list_select Option.none).list_selected
          = Option.none
      ∧ ((PopupState.ThemeList thms ls).list_select (some i)).list_selected
          = some i
      ∧ ((PopupState.ThemeList thms ls).list_select Option.none).list_selected
          = Option.none := by
  intro i s s2 tt al ra ls f arts thms
  refine ⟨rfl, rfl, rfl, rfl, ?_, ?_, rfl, rfl, rfl, rfl, rfl, rfl, rfl, rfl⟩ <;>
    cases f <;> rfl

/-- C2 fails as stated: the handle returned by `get_track_table_state` does
not mirror `select`'s focus routing on the Artist variant — with focus on
Albums and the albums cursor at 5, the handle is the top-tracks cursor, whose
selection is absent while `selected` reports 5. -/
theorem C2_counterexample :
    ¬ (∀ s : TableState,
        (WindowState.Artist ⟨Option.none⟩ ⟨some 5⟩ ⟨Option.none⟩
            ArtistFocusState.Albums).get_track_table_state = some s →
          s.selected = (WindowState.Artist ⟨Option.none⟩ ⟨some 5⟩ ⟨Option.none⟩
            ArtistFocusState.Albums).selected) := by
  intro h
  exact absurd (h ⟨Option.none⟩ rfl) (by decide)

/-- C2 amended: `get_track_table_state` returns the track-table cursor —
absent exactly on Unknown, the table cursor of Playlist and Album, and for
Artist always the top-tracks table cursor regardless of the current focus. -/
theorem C2_amended_track_table_state :
    (∀ w : WindowState,
        w.get_track_table_state = Option.none ↔ w = WindowState.Unknown)
    ∧ (∀ s : TableState,
        (WindowState.Playlist s).get_track_table_state = some s)
    ∧ (∀ s : TableState,
        (WindowState.Album s).get_track_table_state = some s)
    ∧ (∀ (tt : TableState) (al ra : ListState) (f : ArtistFocusState),
        (WindowState.Artist tt al ra f).get_track_table_state = some tt) := by
  refine ⟨?_, fun _ => rfl, fun _ => rfl, fun _ _ _ _ => rfl⟩
  intro w
  cases w <;> simp [WindowState.get_track_table_state]

/-- C9: the default-constructed UI state has the documented field values, its
history is the non-empty single-entry sequence holding the default page, and
the operations of this module — all of which act on the popup or window
component or only read the state — never touch the history field. -/
theorem C9_default_state :
    UIState.default.is_running = true
    ∧ UIState.default.theme = Theme.default
    ∧ UIState.default.input_key_sequence = ⟨[]⟩
    ∧ UIState.default.page = PageState.Default
    ∧ UIState.default.history = [PageState.Default]
    ∧ UIState.default.popup = PopupState.None
    ∧ UIState.default.window = WindowState.Unknown
    ∧ UIState.default.progress_bar_rect = Rect.default
    ∧ UIState.default.history.isEmpty = false
    ∧ UIState.default.history.head? = some PageState.Default
    ∧ (∀ (u : UIState) (f : PopupState → PopupState),
        ({ u with popup := f u.popup } : UIState).history = u.history)
    ∧ (∀ (u : UIState) (g : WindowState → WindowState),
        ({ u with window := g u.window } : UIState).history = u.history) := by
  exact ⟨rfl, rfl, rfl, rfl, rfl, rfl, rfl, rfl, rfl, rfl,
    fun _ _ => rfl, fun _ _ => rfl⟩

/-- C1 fails as stated: with a context-search query consisting of the letter
a, a tab character and the letter b, and the single item "a b", the filter
the claim describes (every whitespace-separated token contained
case-insensitively in the lowercase form) keeps the item, but the code splits
the query only at space characters and drops it. -/
theorem C1_counterexample :
    UIState.get_search_filtered_items
        { UIState.default with popup := PopupState.ContextSearch ("a\tb".toList) }
        [(⟨"a b".toList⟩ : Artist)]
      ≠ List.filter (fun t => specMatch (Display.fmt t) ("a\tb".toList))
        [(⟨"a b".toList⟩ : Artist)] := by
  decide

/-- C1 amended: under a ContextSearch popup the filter keeps exactly the
items whose lowercase display string contains every space-separated piece of
the query literally as a substring (the query is split only at space
characters and its pieces are not lowercased), with logical AND across the
pieces; the empty query matches every item. -/
theorem C1_amended_search_filter {T : Type} [Display T] :
    ∀ (u : UIState) (q : Str) (items : List T),
      u.popup = PopupState.ContextSearch q →
      u.get_search_filtered_items items
          = items.filter (fun t => UIState.query_match (toLowerStr (Display.fmt t)) q)
      ∧ (∀ (s q2 : Str), UIState.query_match s q2
          = (splitOnPred (fun c => c == ' ') q2).all (fun tok => strContains s tok))
      ∧ (∀ s : Str, UIState.query_match s [] = true)
      ∧ (∀ items2 : List T,
          UIState.get_search_filtered_items
            { u with popup := PopupState.ContextSearch [] } items2 = items2) := by
  intro u q items h
  refine ⟨?_, query_match_eq_all, query_match_nil_query, ?_⟩
  · unfold UIState.get_search_filtered_items
    rw [h]
  · intro items2
    unfold UIState.get_search_filtered_items
    simp [query_match_nil_query]

/-- C1 amended, witnessed on the spec's own vector: query "abbey road" over
Abbey Road, Road Trip, Abbey Lane reduces to the literal filter. -/
theorem C1_amended_search_filter_witness :
    UIState.get_search_filtered_items
        { UIState.default with popup := PopupState.ContextSearch ("abbey road".toList) }
        [(⟨"Abbey Road".toList⟩ : Artist), ⟨"Road Trip".toList⟩, ⟨"Abbey Lane".toList⟩]
      = List.filter
          (fun t => UIState.query_match (toLowerStr (Display.fmt t)) ("abbey road".toList))
          [(⟨"Abbey Road".toList⟩ : Artist), ⟨"Road Trip".toList⟩, ⟨"Abbey Lane".toList⟩] :=
  (C1_amended_search_filter _ _ _ rfl).1

/-- C7: the search filter never invents or reorders items — its result is
always a sublist of the input — and under any popup other than ContextSearch
it returns all items unchanged in their original order. -/
theorem C7_passthrough_view {T : Type} [Display T] :
    ∀ (u : UIState) (items : List T),
      (u.get_search_filtered_items items).Sublist items
      ∧ ((∀ q : Str, u.popup ≠ PopupState.ContextSearch q) →
          u.get_search_filtered_items items = items) := by
  intro u items
  constructor
  · unfold UIState.get_search_filtered_items
    cases u.popup <;> first
      | exact List.filter_sublist items
      | exact List.Sublist.refl items
  · intro hq
    unfold UIState.get_search_filtered_items
    cases hp : u.popup <;> first
      | rfl
      | exact absurd hp (hq _)

/-- C7 witnessed: under the CommandHelp popup the filter passes a concrete
item list through unchanged, and the result is a sublist of the input. -/
theorem C7_passthrough_view_witness :
    (UIState.get_search_filtered_items
        { UIState.default with popup := PopupState.CommandHelp }
        [(⟨"Daft Punk".toList⟩ : Artist)]).Sublist [(⟨"Daft Punk".toList⟩ : Artist)]
    ∧ UIState.get_search_filtered_items
        { UIState.default with popup := PopupState.CommandHelp }
        [(⟨"Daft Punk".toList⟩ : Artist)] = [(⟨"Daft Punk".toList⟩ : Artist)] :=
  ⟨(C7_passthrough_view _ _).1,
    (C7_passthrough_view _ _).2 (fun _ h => PopupState.noConfusion h)⟩

end SpotifyPlayer
